import Mathlib

/-!
# Formal model of the attendance application

A shallow embedding of the attendance-tracking application's core logic:
the server actions `markAttendance` and `toggleAttendance`, the read
queries `getMembers`, `getServices`, `getServiceAttendance`,
`getAttendanceRecords`, the admin directory operations `addMember` and
`addService`, and the grouping performed by the records page.

The relational store (three tables: `members`, `services`,
`attendance_records`) is modelled as an explicit `Store` value threaded
through each operation.  Every store round trip in the source returns a
`{ data, error }` pair; a call can fail for reasons external to the
application (network, permissions, ...).  We model this by giving each
operation one boolean flag per store round trip it performs: the flag set
means the store reported an error for that call, exactly as the
`error` field of the supabase response being non-null.  The PostgREST
`.single()` modifier is modelled faithfully: it yields a row exactly when
the query matched exactly one row, and an error (with `data` null)
otherwise.
-/

/-- A row of the `members` table (`id`, `created_at`, `full_name`,
`phone_number`, `email`; the two latter are nullable). -/
structure Member where
  id : String
  created_at : String
  full_name : String
  phone_number : Option String := none
  email : Option String := none
deriving DecidableEq, Repr

/-- A row of the `services` table. -/
structure Service where
  id : String
  created_at : String
  name : String
  description : Option String := none
  service_date : String
deriving DecidableEq, Repr

/-- A row of the `attendance_records` table: `member_id` and `service_id`
reference the two other tables, `service_date` is the denormalised copy of
the service's date taken at insert time. -/
structure AttendanceRecord where
  id : String
  member_id : String
  service_id : String
  service_date : String
deriving DecidableEq, Repr

/-- The relational store: the three tables, plus a counter used to mint
fresh primary keys for inserted attendance records (the database generates
these via `gen_random_uuid()`; only freshness matters to the logic, which
never compares record ids). -/
structure Store where
  members : List Member := []
  services : List Service := []
  attendance_records : List AttendanceRecord := []
  nextId : Nat := 0
deriving DecidableEq, Repr

/-- Result value of the server actions: `{ success: true }` or
`{ error: msg }`. -/
inductive ActionResult where
  | success
  | error (msg : String)
deriving DecidableEq, Repr

/-- PostgREST `.single()`: succeeds with the row when the query matched
exactly one row, otherwise reports an error and null data. -/
def single {α : Type} (rows : List α) : Except String α :=
  match rows with
  | [row] => .ok row
  | _ => .error "JSON object requested, multiple (or no) rows returned"

/-- The message attached to an externally injected store failure. -/
def storeFailureMsg : String := "store failure"

/-- The store's ORDER BY comparison on text/date columns: lexicographic
order on the underlying character list (ISO dates compare correctly this
way). -/
def strLE (a b : String) : Prop := a.data ≤ b.data

instance : DecidableRel strLE := fun a b =>
  inferInstanceAs (Decidable (a.data ≤ b.data))

/-- `supabase.from('services').select('service_date').eq('id', serviceId).single()`:
either an injected store failure, or `single` over the rows whose `id`
matches. -/
def serviceQuery (st : Store) (serviceId : String) (fail : Bool) :
    Except String Service :=
  if fail then .error storeFailureMsg
  else single (st.services.filter (fun v => v.id == serviceId))

/-- The attendance records matching a given (member, service) pair. -/
def pairRecords (st : Store) (memberId serviceId : String) :
    List AttendanceRecord :=
  st.attendance_records.filter
    (fun r => r.member_id == memberId && r.service_id == serviceId)

/-- Number of attendance records for a (member, service) pair. -/
def countPair (st : Store) (memberId serviceId : String) : Nat :=
  (pairRecords st memberId serviceId).length

/-- The duplicate-existence check in both actions:
`.select('id').eq('member_id', m).eq('service_id', s).single()`, of which
the source destructures only `data` — the `error` field is discarded, so
a failed call (injected failure, zero rows, or multiple rows) yields
`none` exactly like an absent record. -/
def existingRecordQuery (st : Store) (memberId serviceId : String)
    (fail : Bool) : Option AttendanceRecord :=
  if fail then none
  else
    match pairRecords st memberId serviceId with
    | [r] => some r
    | _ => none

/-- Insert one attendance record (the `insert([{ member_id, service_id,
service_date }])` call), with a store-minted fresh id. -/
def insertRecord (st : Store) (memberId serviceId service_date : String) :
    Store :=
  { st with
    attendance_records := st.attendance_records ++
      [{ id := toString st.nextId, member_id := memberId,
         service_id := serviceId, service_date := service_date }],
    nextId := st.nextId + 1 }

/-- Delete by equality filters (`delete().eq('member_id', m)
.eq('service_id', s)`): removes every row matching the pair. -/
def deleteRecords (st : Store) (memberId serviceId : String) : Store :=
  { st with
    attendance_records := st.attendance_records.filter
      (fun r => !(r.member_id == memberId && r.service_id == serviceId)) }

/-- Failure flags for the three store round trips of `markAttendance`. -/
structure MarkFlags where
  serviceFail : Bool := false
  checkFail : Bool := false
  insertFail : Bool := false
deriving DecidableEq, Repr

/-- All store calls succeed. -/
def noFailM : MarkFlags := {}

/-- `markAttendance` from `src/app/attendance/actions.ts`: validates the
two ids, fetches the service date, checks for an existing record
(discarding that query's error), then inserts with the copied date. -/
def markAttendance (memberId serviceId : String) (st : Store)
    (f : MarkFlags) : ActionResult × Store :=
  if memberId = "" || serviceId = "" then
    (.error "Member and service are required", st)
  else
    match serviceQuery st serviceId f.serviceFail with
    | .error msg =>
        (.error ("Failed to fetch service details: " ++ msg), st)
    | .ok service =>
        match existingRecordQuery st memberId serviceId f.checkFail with
        | some _ =>
            (.error "Attendance already marked for this member for this service", st)
        | none =>
            if f.insertFail then
              (.error ("Failed to mark attendance: " ++ storeFailureMsg), st)
            else
              (.success, insertRecord st memberId serviceId service.service_date)

/-- Failure flags for the store round trips of `toggleAttendance`
(service fetch, existence check, then delete or insert). -/
structure ToggleFlags where
  serviceFail : Bool := false
  checkFail : Bool := false
  deleteFail : Bool := false
  insertFail : Bool := false
deriving DecidableEq, Repr

/-- All store calls succeed. -/
def noFailT : ToggleFlags := {}

/-- `toggleAttendance` from `src/app/attendance/actions.ts`: same
validation and service fetch as `markAttendance`; deletes the record when
the existence check returned one, inserts (copying the service date)
otherwise. -/
def toggleAttendance (memberId serviceId : String) (st : Store)
    (f : ToggleFlags) : ActionResult × Store :=
  if memberId = "" || serviceId = "" then
    (.error "Member and service are required", st)
  else
    match serviceQuery st serviceId f.serviceFail with
    | .error msg =>
        (.error ("Failed to fetch service details: " ++ msg), st)
    | .ok service =>
        match existingRecordQuery st memberId serviceId f.checkFail with
        | some _ =>
            if f.deleteFail then
              (.error ("Failed to unmark attendance: " ++ storeFailureMsg), st)
            else
              (.success, deleteRecords st memberId serviceId)
        | none =>
            if f.insertFail then
              (.error ("Failed to mark attendance: " ++ storeFailureMsg), st)
            else
              (.success, insertRecord st memberId serviceId service.service_date)

/-- The (`id`, `full_name`) projection selected by the attendance page's
member list. -/
structure MemberRow where
  id : String
  full_name : String
deriving DecidableEq, Repr

/-- Ascending full-name order used by the attendance page's member query
(`order('full_name')`). -/
def memberRowLE (a b : MemberRow) : Prop := strLE a.full_name b.full_name

instance : DecidableRel memberRowLE := fun a b =>
  inferInstanceAs (Decidable (strLE a.full_name b.full_name))

instance : IsTotal MemberRow memberRowLE :=
  ⟨fun a b => le_total a.full_name.data b.full_name.data⟩

instance : IsTrans MemberRow memberRowLE :=
  ⟨fun _ _ _ h1 h2 => le_trans h1 h2⟩

/-- Descending creation-time order used by the admin page's member query
(`order('created_at', { ascending: false })`). -/
def memberCreatedGE (a b : Member) : Prop := strLE b.created_at a.created_at

instance : DecidableRel memberCreatedGE := fun a b =>
  inferInstanceAs (Decidable (strLE b.created_at a.created_at))

instance : IsTotal Member memberCreatedGE :=
  ⟨fun a b => le_total b.created_at.data a.created_at.data⟩

instance : IsTrans Member memberCreatedGE :=
  ⟨fun _ _ _ h1 h2 => le_trans h2 h1⟩

/-- Descending date order used by the services query (`order('service_date',
{ ascending: false })`). -/
def serviceDateGE (a b : Service) : Prop := strLE b.service_date a.service_date

instance : DecidableRel serviceDateGE := fun a b =>
  inferInstanceAs (Decidable (strLE b.service_date a.service_date))

instance : IsTotal Service serviceDateGE :=
  ⟨fun a b => le_total b.service_date.data a.service_date.data⟩

instance : IsTrans Service serviceDateGE :=
  ⟨fun _ _ _ h1 h2 => le_trans h2 h1⟩

/-- `getMembers` from the attendance page
(`select('id, full_name').order('full_name')`): all members sorted by full
name ascending; throws (`Except.error`) when the store reports an error. -/
def getMembers (st : Store) (fail : Bool) :
    Except String (List MemberRow) :=
  if fail then .error ("Failed to fetch members: " ++ storeFailureMsg)
  else .ok (((st.members.map
      (fun m => ({ id := m.id, full_name := m.full_name } : MemberRow)))).insertionSort
      memberRowLE)

/-- `getMembers` from the admin page
(`select('*').order('created_at', { ascending: false })`): all members
sorted by creation timestamp descending. -/
def getMembersAdmin (st : Store) (fail : Bool) :
    Except String (List Member) :=
  if fail then .error ("Failed to fetch members: " ++ storeFailureMsg)
  else .ok (st.members.insertionSort memberCreatedGE)

/-- `getServices` (attendance and admin pages):
`select('*').order('service_date', { ascending: false })`. -/
def getServices (st : Store) (fail : Bool) :
    Except String (List Service) :=
  if fail then .error ("Failed to fetch services: " ++ storeFailureMsg)
  else .ok (st.services.insertionSort serviceDateGE)

/-- `getServiceAttendance`:
`select('*').eq('service_id', serviceId)`, no ordering; throws on store
error, returns the (possibly empty) row list otherwise. -/
def getServiceAttendance (serviceId : String) (st : Store) (fail : Bool) :
    Except String (List AttendanceRecord) :=
  if fail then
    .error ("Failed to fetch service attendance: " ++ storeFailureMsg)
  else .ok (st.attendance_records.filter (fun r => r.service_id == serviceId))

/-- The row shape selected by the records page: the record's `id` and
`service_date` plus the embedded `services ( name )` and
`members ( full_name )` relations, which PostgREST returns (and the page
types) as arrays. -/
structure EnrichedRecord where
  id : String
  service_date : String
  services : List String
  members : List String
deriving DecidableEq, Repr

/-- The embedded-relation join performed by the records page's select:
the names of the services whose `id` equals the record's `service_id`,
and the full names of the members whose `id` equals its `member_id`. -/
def enrich (st : Store) (r : AttendanceRecord) : EnrichedRecord :=
  { id := r.id
    service_date := r.service_date
    services := (st.services.filter (fun v => v.id == r.service_id)).map
      (fun v => v.name)
    members := (st.members.filter (fun m => m.id == r.member_id)).map
      (fun m => m.full_name) }

/-- Descending-date order used by the records query (`order('service_date',
{ ascending: false })`). -/
def dateGE (a b : EnrichedRecord) : Prop := strLE b.service_date a.service_date

instance : DecidableRel dateGE := fun a b =>
  inferInstanceAs (Decidable (strLE b.service_date a.service_date))

instance : IsTotal EnrichedRecord dateGE :=
  ⟨fun a b => le_total b.service_date.data a.service_date.data⟩

instance : IsTrans EnrichedRecord dateGE :=
  ⟨fun _ _ _ h1 h2 => le_trans h2 h1⟩

/-- `getAttendanceRecords` from the records page: every attendance record
with embedded service name and member full name, ordered by service date
descending; throws on store error. -/
def getAttendanceRecords (st : Store) (fail : Bool) :
    Except String (List EnrichedRecord) :=
  if fail then
    .error ("Failed to fetch attendance records: " ++ storeFailureMsg)
  else .ok ((st.attendance_records.map (enrich st)).insertionSort dateGE)

/-- The grouping key used by the records page:
`record.services?.[0]?.name || 'Unknown Service'` — the first embedded
service name, falling back to the placeholder when the relation is empty
or the name is the empty string (JavaScript falsiness). -/
def serviceNameKey (e : EnrichedRecord) : String :=
  match e.services with
  | [] => "Unknown Service"
  | n :: _ => if n = "" then "Unknown Service" else n

/-- The group the records page's `reduce` builds for a given key: the
records of the fetched list whose key equals it, in fetch order. -/
def recordsByService (records : List EnrichedRecord) (name : String) :
    List EnrichedRecord :=
  records.filter (fun e => serviceNameKey e == name)

/-- `addMember` from the admin page: raises (`Except.error`) when
`full_name` is empty or the insert fails; the database fills `id` and
`created_at`, modelled as explicit inputs. -/
def addMember (full_name : String) (phone_number email : Option String)
    (id created_at : String) (st : Store) (fail : Bool) :
    Except String Store :=
  if full_name = "" then .error "Full name is required"
  else if fail then .error ("Failed to add member: " ++ storeFailureMsg)
  else .ok { st with members := st.members ++
    [{ id := id, created_at := created_at, full_name := full_name,
       phone_number := phone_number, email := email }] }

/-- `addService` from the admin page: raises when `name` or
`service_date` is empty or the insert fails (including the store-level
date-uniqueness violation, which is just an insert failure). -/
def addService (name : String) (description : Option String)
    (service_date : String) (id created_at : String) (st : Store)
    (fail : Bool) : Except String Store :=
  if name = "" || service_date = "" then
    .error "Service name and date are required"
  else if fail then .error ("Failed to add service: " ++ storeFailureMsg)
  else .ok { st with services := st.services ++
    [{ id := id, created_at := created_at, name := name,
       description := description, service_date := service_date }] }

/-- The at-most-one-record-per-(member, service) invariant. -/
def AtMostOnePerPair (st : Store) : Prop :=
  ∀ m s, countPair st m s ≤ 1

/-! ## Basic facts about the store primitives -/

theorem insertRecord_services (st : Store) (m s d : String) :
    (insertRecord st m s d).services = st.services := rfl

theorem deleteRecords_services (st : Store) (m s : String) :
    (deleteRecords st m s).services = st.services := rfl

theorem pairRecords_congr {st st' : Store} (m s : String)
    (h : st.attendance_records = st'.attendance_records) :
    pairRecords st m s = pairRecords st' m s := by
  simp [pairRecords, h]

theorem pairRecords_insertRecord_self (st : Store) (m s d : String) :
    pairRecords (insertRecord st m s d) m s =
      pairRecords st m s ++
        [{ id := toString st.nextId, member_id := m, service_id := s,
           service_date := d }] := by
  simp [pairRecords, insertRecord, List.filter_append]

theorem countPair_insertRecord (st : Store) (m s d m' s' : String) :
    countPair (insertRecord st m s d) m' s' =
      countPair st m' s' + (if m = m' ∧ s = s' then 1 else 0) := by
  simp only [countPair, pairRecords, insertRecord, List.filter_append,
    List.length_append]
  by_cases h1 : m = m' <;> by_cases h2 : s = s'
  · simp [h1, h2, List.filter]
  · simp [h1, h2, List.filter, beq_false_of_ne h2]
  · simp [h1, h2, List.filter, beq_false_of_ne h1]
  · simp [h1, h2, List.filter, beq_false_of_ne h1]

theorem countPair_deleteRecords_le (st : Store) (m s m' s' : String) :
    countPair (deleteRecords st m s) m' s' ≤ countPair st m' s' := by
  simp only [countPair, pairRecords, deleteRecords]
  exact ((List.filter_sublist _).filter _).length_le

theorem pairRecords_deleteRecords_self (st : Store) (m s : String) :
    pairRecords (deleteRecords st m s) m s = [] := by
  simp only [pairRecords, deleteRecords, List.filter_filter]
  rw [List.filter_eq_nil_iff]
  intro a ha
  simp

theorem deleteRecords_of_pairRecords_nil {st : Store} {m s : String}
    (h : pairRecords st m s = []) :
    (deleteRecords st m s).attendance_records = st.attendance_records := by
  simp only [deleteRecords]
  rw [List.filter_eq_self]
  intro a ha
  have h2 := (List.filter_eq_nil_iff.mp h) a ha
  cases hb : (a.member_id == m && a.service_id == s) <;> simp_all

/-! ## Unfolding the actions under nominal store behaviour -/

theorem markAttendance_insert_step {st : Store} {m s : String} {sv : Service}
    (hm : m ≠ "") (hs : s ≠ "")
    (hsv : st.services.filter (fun v => v.id == s) = [sv])
    (h0 : pairRecords st m s = []) :
    markAttendance m s st noFailM =
      (.success, insertRecord st m s sv.service_date) := by
  simp [markAttendance, noFailM, serviceQuery, existingRecordQuery, single,
    hsv, h0, hm, hs]

theorem markAttendance_dup_step {st : Store} {m s : String} {sv : Service}
    {r : AttendanceRecord}
    (hm : m ≠ "") (hs : s ≠ "")
    (hsv : st.services.filter (fun v => v.id == s) = [sv])
    (h1 : pairRecords st m s = [r]) :
    markAttendance m s st noFailM =
      (.error "Attendance already marked for this member for this service",
        st) := by
  simp [markAttendance, noFailM, serviceQuery, existingRecordQuery, single,
    hsv, h1, hm, hs]

theorem toggleAttendance_mark_step {st : Store} {m s : String} {sv : Service}
    (hm : m ≠ "") (hs : s ≠ "")
    (hsv : st.services.filter (fun v => v.id == s) = [sv])
    (h0 : pairRecords st m s = []) :
    toggleAttendance m s st noFailT =
      (.success, insertRecord st m s sv.service_date) := by
  simp [toggleAttendance, noFailT, serviceQuery, existingRecordQuery, single,
    hsv, h0, hm, hs]

theorem toggleAttendance_unmark_step {st : Store} {m s : String}
    {sv : Service} {r : AttendanceRecord}
    (hm : m ≠ "") (hs : s ≠ "")
    (hsv : st.services.filter (fun v => v.id == s) = [sv])
    (h1 : pairRecords st m s = [r]) :
    toggleAttendance m s st noFailT = (.success, deleteRecords st m s) := by
  simp [toggleAttendance, noFailT, serviceQuery, existingRecordQuery, single,
    hsv, h1, hm, hs]

/-! ## Concrete fixtures used by witnesses and counterexamples -/

/-- A concrete service. -/
def svSunday : Service :=
  { id := "s1", created_at := "c1", name := "Sunday Service",
    service_date := "2024-01-07" }

/-- A second concrete service sharing `svSunday`'s name. -/
def svSunday2 : Service :=
  { id := "s2", created_at := "c2", name := "Sunday Service",
    service_date := "2024-01-14" }

/-- A concrete member. -/
def mbJane : Member :=
  { id := "m1", created_at := "2024-01-02", full_name := "Jane Doe" }

/-- A second concrete member whose full name sorts before `mbJane`'s but
whose creation time is earlier. -/
def mbAmy : Member :=
  { id := "m2", created_at := "2024-01-01", full_name := "Amy Poe" }

/-- A store with one member, one service and no attendance records. -/
def stBase : Store :=
  { members := [mbJane], services := [svSunday], attendance_records := [] }

/-- An attendance record of `mbJane` at `svSunday`. -/
def recJane : AttendanceRecord :=
  { id := "r1", member_id := "m1", service_id := "s1",
    service_date := "2024-01-07" }

/-- A store that already holds `recJane`. -/
def stMarked : Store :=
  { members := [mbJane], services := [svSunday],
    attendance_records := [recJane] }

/-! ## C1 -/

/-- C1: for a member and a service of the store (non-empty ids, a unique
`services` row for the id) and no attendance record for the pair, calling
`markAttendance` twice in sequence under nominal store behaviour leaves
exactly one record for the pair; the second call returns the error
`Attendance already marked for this member for this service` and leaves
the store exactly as the first call left it. -/
theorem markAttendance_twice_duplicate {st : Store} {m s : String}
    {sv : Service}
    (hm : m ≠ "") (hs : s ≠ "")
    (hsv : st.services.filter (fun v => v.id == s) = [sv])
    (h0 : pairRecords st m s = []) :
    ∃ st1, markAttendance m s st noFailM = (.success, st1) ∧
      countPair st1 m s = 1 ∧
      markAttendance m s st1 noFailM =
        (.error "Attendance already marked for this member for this service",
          st1) := by
  refine ⟨insertRecord st m s sv.service_date,
    markAttendance_insert_step hm hs hsv h0, ?_, ?_⟩
  · rw [countPair, pairRecords_insertRecord_self, h0]
    rfl
  · exact @markAttendance_dup_step (insertRecord st m s sv.service_date)
      m s sv
      { id := toString st.nextId, member_id := m, service_id := s,
        service_date := sv.service_date }
      hm hs hsv (by rw [pairRecords_insertRecord_self, h0]; rfl)

/-- Witness for C1 at a concrete store. -/
theorem markAttendance_twice_duplicate_witness :
    (("m1" : String) ≠ "" ∧ ("s1" : String) ≠ "" ∧
      stBase.services.filter (fun v => v.id == "s1") = [svSunday] ∧
      pairRecords stBase "m1" "s1" = []) ∧
    (∃ st1, markAttendance "m1" "s1" stBase noFailM = (.success, st1) ∧
      countPair st1 "m1" "s1" = 1 ∧
      markAttendance "m1" "s1" st1 noFailM =
        (.error "Attendance already marked for this member for this service",
          st1)) :=
  ⟨by decide, markAttendance_twice_duplicate (by decide) (by decide)
    (by decide :
      stBase.services.filter (fun v => v.id == "s1") = [svSunday])
    (by decide)⟩

/-! ## C4 -/

/-- C4: with an empty memberId or an empty serviceId, `markAttendance` and
`toggleAttendance` return the error `Member and service are required` and
leave the store untouched, whatever the store state and whatever the
store's responses would have been (the failure flags are universally
quantified, so the result is reached before any store access). -/
theorem empty_id_validation {st : Store} {m s : String}
    (fm : MarkFlags) (ft : ToggleFlags) (h : m = "" ∨ s = "") :
    markAttendance m s st fm = (.error "Member and service are required", st) ∧
    toggleAttendance m s st ft =
      (.error "Member and service are required", st) := by
  rcases h with h | h <;> subst h <;>
    exact ⟨by simp [markAttendance], by simp [toggleAttendance]⟩

/-- Witness for C4 at a concrete store. -/
theorem empty_id_validation_witness :
    (("" : String) = "" ∨ ("s1" : String) = "") ∧
    (markAttendance "" "s1" stMarked { serviceFail := true } =
      (.error "Member and service are required", stMarked) ∧
    toggleAttendance "" "s1" stMarked { deleteFail := true } =
      (.error "Member and service are required", stMarked)) :=
  ⟨Or.inl rfl, empty_id_validation { serviceFail := true }
    { deleteFail := true } (Or.inl rfl)⟩

/-! ## C8 -/

/-- C8: with non-empty ids, when no `services` row has the requested id
(or the lookup call itself fails), both actions return an error message
beginning with `Failed to fetch service details` and leave the store
untouched. -/
theorem service_lookup_failure {st : Store} {m s : String}
    {fm : MarkFlags} {ft : ToggleFlags}
    (hm : m ≠ "") (hs : s ≠ "")
    (h : st.services.filter (fun v => v.id == s) = [] ∨
      (fm.serviceFail = true ∧ ft.serviceFail = true)) :
    (∃ rest, markAttendance m s st fm =
      (.error ("Failed to fetch service details: " ++ rest), st)) ∧
    (∃ rest, toggleAttendance m s st ft =
      (.error ("Failed to fetch service details: " ++ rest), st)) := by
  constructor
  · cases hf : fm.serviceFail with
    | true =>
        exact ⟨storeFailureMsg,
          by simp [markAttendance, serviceQuery, hf, hm, hs]⟩
    | false =>
        rcases h with h | ⟨h1, _⟩
        · exact ⟨"JSON object requested, multiple (or no) rows returned",
            by simp [markAttendance, serviceQuery, single, hf, h, hm, hs]⟩
        · rw [hf] at h1
          exact absurd h1 (by decide)
  · cases hf : ft.serviceFail with
    | true =>
        exact ⟨storeFailureMsg,
          by simp [toggleAttendance, serviceQuery, hf, hm, hs]⟩
    | false =>
        rcases h with h | ⟨_, h2⟩
        · exact ⟨"JSON object requested, multiple (or no) rows returned",
            by simp [toggleAttendance, serviceQuery, single, hf, h, hm, hs]⟩
        · rw [hf] at h2
          exact absurd h2 (by decide)

/-- Witness for C8: a service id absent from the store. -/
theorem service_lookup_failure_witness :
    (("m1" : String) ≠ "" ∧ ("missing" : String) ≠ "" ∧
      stBase.services.filter (fun v => v.id == "missing") = []) ∧
    ((∃ rest, markAttendance "m1" "missing" stBase noFailM =
      (.error ("Failed to fetch service details: " ++ rest), stBase)) ∧
    (∃ rest, toggleAttendance "m1" "missing" stBase noFailT =
      (.error ("Failed to fetch service details: " ++ rest), stBase))) :=
  ⟨by decide, service_lookup_failure (by decide) (by decide)
    (Or.inl (by decide))⟩

/-! ## C10 -/

/-- C10: when the duplicate-existence check's store call fails, its error
is discarded and both actions behave exactly as if no record existed:
whatever attendance records the store holds for the pair, the operation
proceeds to the insert (returning the insert's own outcome), and no error
about the failed check is ever part of the result. -/
theorem check_failure_discarded {st : Store} {m s : String} {sv : Service}
    (fI dF : Bool)
    (hm : m ≠ "") (hs : s ≠ "")
    (hsv : st.services.filter (fun v => v.id == s) = [sv]) :
    markAttendance m s st
        { serviceFail := false, checkFail := true, insertFail := fI } =
      (if fI then
        (.error ("Failed to mark attendance: " ++ storeFailureMsg), st)
       else (.success, insertRecord st m s sv.service_date)) ∧
    toggleAttendance m s st
        { serviceFail := false, checkFail := true, deleteFail := dF,
          insertFail := fI } =
      (if fI then
        (.error ("Failed to mark attendance: " ++ storeFailureMsg), st)
       else (.success, insertRecord st m s sv.service_date)) := by
  cases fI <;>
    exact ⟨by simp [markAttendance, serviceQuery, existingRecordQuery,
        single, hsv, hm, hs],
      by simp [toggleAttendance, serviceQuery, existingRecordQuery, single,
        hsv, hm, hs]⟩

/-- Witness for C10: the store already holds a record for the pair, yet
the failed check makes both actions insert a second one. -/
theorem check_failure_discarded_witness :
    (("m1" : String) ≠ "" ∧ ("s1" : String) ≠ "" ∧
      stMarked.services.filter (fun v => v.id == "s1") = [svSunday]) ∧
    (markAttendance "m1" "s1" stMarked
        { serviceFail := false, checkFail := true, insertFail := false } =
      (.success, insertRecord stMarked "m1" "s1" svSunday.service_date) ∧
    toggleAttendance "m1" "s1" stMarked
        { serviceFail := false, checkFail := true, deleteFail := false,
          insertFail := false } =
      (.success, insertRecord stMarked "m1" "s1" svSunday.service_date)) :=
  ⟨by decide, check_failure_discarded false false (by decide) (by decide)
    (by decide :
      stMarked.services.filter (fun v => v.id == "s1") = [svSunday])⟩

/-! ## C2 -/

/-- One mark/unmark round of `toggleAttendance` from a pair-free store:
the first call inserts a record carrying the service's date, the second
deletes it, and the attendance table (and the services table) return to
exactly their initial contents. -/
theorem toggleAttendance_round {st : Store} {m s : String} {sv : Service}
    (hm : m ≠ "") (hs : s ≠ "")
    (hsv : st.services.filter (fun v => v.id == s) = [sv])
    (h0 : pairRecords st m s = []) :
    toggleAttendance m s st noFailT =
      (.success, insertRecord st m s sv.service_date) ∧
    toggleAttendance m s (insertRecord st m s sv.service_date) noFailT =
      (.success, deleteRecords (insertRecord st m s sv.service_date) m s) ∧
    (deleteRecords (insertRecord st m s sv.service_date) m s).attendance_records
      = st.attendance_records ∧
    (deleteRecords (insertRecord st m s sv.service_date) m s).services
      = st.services := by
  refine ⟨toggleAttendance_mark_step hm hs hsv h0, ?_, ?_, rfl⟩
  · exact @toggleAttendance_unmark_step (insertRecord st m s sv.service_date)
      m s sv
      { id := toString st.nextId, member_id := m, service_id := s,
        service_date := sv.service_date }
      hm hs hsv (by rw [pairRecords_insertRecord_self, h0]; rfl)
  · show (insertRecord st m s sv.service_date).attendance_records.filter _
      = st.attendance_records
    rw [show (insertRecord st m s sv.service_date).attendance_records
        = st.attendance_records ++
          [{ id := toString st.nextId, member_id := m, service_id := s,
             service_date := sv.service_date }] from rfl,
      List.filter_append,
      show List.filter _ st.attendance_records
          = (deleteRecords st m s).attendance_records from rfl,
      deleteRecords_of_pairRecords_nil h0]
    simp

/-- C2: from a store whose pair (m, s) has no record and whose service s
exists (uniquely), `toggleAttendance` under nominal store behaviour
creates a record carrying the service's current date; a second call
deletes it, returning the pair to zero records (indeed to the exact
initial attendance table); the third and fourth calls repeat the cycle,
so four calls also end with zero records for the pair. -/
theorem toggleAttendance_pairing {st : Store} {m s : String} {sv : Service}
    (hm : m ≠ "") (hs : s ≠ "")
    (hsv : st.services.filter (fun v => v.id == s) = [sv])
    (h0 : pairRecords st m s = []) :
    ∃ st1 st2 st3 st4,
      toggleAttendance m s st noFailT = (.success, st1) ∧
      st1.attendance_records = st.attendance_records ++
        [{ id := toString st.nextId, member_id := m, service_id := s,
           service_date := sv.service_date }] ∧
      countPair st1 m s = 1 ∧
      toggleAttendance m s st1 noFailT = (.success, st2) ∧
      countPair st2 m s = 0 ∧
      toggleAttendance m s st2 noFailT = (.success, st3) ∧
      toggleAttendance m s st3 noFailT = (.success, st4) ∧
      countPair st4 m s = 0 := by
  obtain ⟨h1, h2, h3, h4⟩ := toggleAttendance_round hm hs hsv h0
  set st1 := insertRecord st m s sv.service_date with hst1
  set st2 := deleteRecords st1 m s with hst2
  have hsv2 : st2.services.filter (fun v => v.id == s) = [sv] := by
    rw [h4]; exact hsv
  have h02 : pairRecords st2 m s = [] := by
    rw [pairRecords_congr m s h3]; exact h0
  obtain ⟨h1', h2', h3', _⟩ := toggleAttendance_round hm hs hsv2 h02
  refine ⟨st1, st2, insertRecord st2 m s sv.service_date,
    deleteRecords (insertRecord st2 m s sv.service_date) m s,
    h1, rfl, ?_, h2, ?_, h1', h2', ?_⟩
  · rw [countPair, pairRecords_insertRecord_self, h0]
    rfl
  · rw [countPair, pairRecords_congr m s h3, ← countPair]
    rw [countPair, h0]
    rfl
  · rw [countPair, pairRecords_congr m s h3', ← countPair]
    rw [countPair, h02]
    rfl

/-- Witness for C2 at a concrete store. -/
theorem toggleAttendance_pairing_witness :
    (("m1" : String) ≠ "" ∧ ("s1" : String) ≠ "" ∧
      stBase.services.filter (fun v => v.id == "s1") = [svSunday] ∧
      pairRecords stBase "m1" "s1" = []) ∧
    (∃ st1 st2 st3 st4,
      toggleAttendance "m1" "s1" stBase noFailT = (.success, st1) ∧
      st1.attendance_records = stBase.attendance_records ++
        [{ id := toString stBase.nextId, member_id := "m1",
           service_id := "s1", service_date := svSunday.service_date }] ∧
      countPair st1 "m1" "s1" = 1 ∧
      toggleAttendance "m1" "s1" st1 noFailT = (.success, st2) ∧
      countPair st2 "m1" "s1" = 0 ∧
      toggleAttendance "m1" "s1" st2 noFailT = (.success, st3) ∧
      toggleAttendance "m1" "s1" st3 noFailT = (.success, st4) ∧
      countPair st4 "m1" "s1" = 0) :=
  ⟨by decide, toggleAttendance_pairing (by decide) (by decide)
    (by decide :
      stBase.services.filter (fun v => v.id == "s1") = [svSunday])
    (by decide)⟩

/-! ## C3 -/

/-- The store states `markAttendance` can leave behind when the
duplicate-check call itself does not fail: the input store (any error
path, including the duplicate error), or an insert — and the insert only
happens when the pair's records were not a single one. -/
theorem markAttendance_state_cases (st : Store) (m s : String)
    (fm : MarkFlags) (hc : fm.checkFail = false) :
    (markAttendance m s st fm).2 = st ∨
    ((¬ ∃ r, pairRecords st m s = [r]) ∧
      ∃ d, (markAttendance m s st fm).2 = insertRecord st m s d) := by
  by_cases hv : m = "" ∨ s = ""
  · left
    rcases hv with h | h <;> subst h <;> simp [markAttendance]
  · push_neg at hv
    obtain ⟨hm, hs⟩ := hv
    cases hq : serviceQuery st s fm.serviceFail with
    | error msg => left; simp [markAttendance, hm, hs, hq]
    | ok service =>
      have hex : existingRecordQuery st m s fm.checkFail =
          (match pairRecords st m s with
            | [r] => some r
            | _ => none) := by
        rw [hc]; rfl
      rcases hpr : pairRecords st m s with _ | ⟨a, _ | ⟨b, t⟩⟩
      · have hnone : existingRecordQuery st m s fm.checkFail = none := by
          rw [hex, hpr]
        cases hins : fm.insertFail
        · right
          refine ⟨?_, service.service_date, ?_⟩
          · rintro ⟨r, hr⟩; simp at hr
          · simp [markAttendance, hm, hs, hq, hnone, hins]
        · left; simp [markAttendance, hm, hs, hq, hnone, hins]
      · have hsome : existingRecordQuery st m s fm.checkFail = some a := by
          rw [hex, hpr]
        left; simp [markAttendance, hm, hs, hq, hsome]
      · have hnone : existingRecordQuery st m s fm.checkFail = none := by
          rw [hex, hpr]
        cases hins : fm.insertFail
        · right
          refine ⟨?_, service.service_date, ?_⟩
          · rintro ⟨r, hr⟩; simp at hr
          · simp [markAttendance, hm, hs, hq, hnone, hins]
        · left; simp [markAttendance, hm, hs, hq, hnone, hins]

/-- The store states `toggleAttendance` can leave behind when the
duplicate-check call itself does not fail: the input store, a delete of
the pair's records, or an insert reached only when the pair's records
were not a single one. -/
theorem toggleAttendance_state_cases (st : Store) (m s : String)
    (ft : ToggleFlags) (hc : ft.checkFail = false) :
    (toggleAttendance m s st ft).2 = st ∨
    (toggleAttendance m s st ft).2 = deleteRecords st m s ∨
    ((¬ ∃ r, pairRecords st m s = [r]) ∧
      ∃ d, (toggleAttendance m s st ft).2 = insertRecord st m s d) := by
  by_cases hv : m = "" ∨ s = ""
  · left
    rcases hv with h | h <;> subst h <;> simp [toggleAttendance]
  · push_neg at hv
    obtain ⟨hm, hs⟩ := hv
    cases hq : serviceQuery st s ft.serviceFail with
    | error msg => left; simp [toggleAttendance, hm, hs, hq]
    | ok service =>
      have hex : existingRecordQuery st m s ft.checkFail =
          (match pairRecords st m s with
            | [r] => some r
            | _ => none) := by
        rw [hc]; rfl
      rcases hpr : pairRecords st m s with _ | ⟨a, _ | ⟨b, t⟩⟩
      · have hnone : existingRecordQuery st m s ft.checkFail = none := by
          rw [hex, hpr]
        cases hins : ft.insertFail
        · right; right
          refine ⟨?_, service.service_date, ?_⟩
          · rintro ⟨r, hr⟩; simp at hr
          · simp [toggleAttendance, hm, hs, hq, hnone, hins]
        · left; simp [toggleAttendance, hm, hs, hq, hnone, hins]
      · have hsome : existingRecordQuery st m s ft.checkFail = some a := by
          rw [hex, hpr]
        cases hdel : ft.deleteFail
        · right; left
          simp [toggleAttendance, hm, hs, hq, hsome, hdel]
        · left; simp [toggleAttendance, hm, hs, hq, hsome, hdel]
      · have hnone : existingRecordQuery st m s ft.checkFail = none := by
          rw [hex, hpr]
        cases hins : ft.insertFail
        · right; right
          refine ⟨?_, service.service_date, ?_⟩
          · rintro ⟨r, hr⟩; simp at hr
          · simp [toggleAttendance, hm, hs, hq, hnone, hins]
        · left; simp [toggleAttendance, hm, hs, hq, hnone, hins]

/-- Inserting a pair whose records were not a single one preserves the
at-most-one invariant (under the invariant, "not a single one" forces
"none"). -/
theorem atMostOne_insertRecord {st : Store} {m s d : String}
    (h : AtMostOnePerPair st) (hns : ¬ ∃ r, pairRecords st m s = [r]) :
    AtMostOnePerPair (insertRecord st m s d) := by
  intro m' s'
  rw [countPair_insertRecord]
  by_cases hms : m = m' ∧ s = s'
  · obtain ⟨rfl, rfl⟩ := hms
    rw [if_pos ⟨rfl, rfl⟩]
    have h1 := h m s
    have h2 : countPair st m s ≠ 1 := by
      intro hcp
      exact hns (List.length_eq_one.mp hcp)
    omega
  · rw [if_neg hms]
    simpa using h m' s'

/-- Deleting a pair's records preserves the at-most-one invariant. -/
theorem atMostOne_deleteRecords {st : Store} {m s : String}
    (h : AtMostOnePerPair st) : AtMostOnePerPair (deleteRecords st m s) :=
  fun m' s' =>
    le_trans (countPair_deleteRecords_le st m s m' s') (h m' s')

/-- C3 (amended): from any store satisfying the at-most-one-record
invariant, `markAttendance` and `toggleAttendance` leave a store that
still satisfies it — for every input and every store failure pattern in
which the duplicate-check call itself does not fail.  (When that call
fails its error is discarded and a duplicate insert can occur; see the
counterexample.) -/
theorem invariant_preserved (st : Store) (m s : String) (fm : MarkFlags)
    (ft : ToggleFlags) (hcm : fm.checkFail = false)
    (hct : ft.checkFail = false) (h : AtMostOnePerPair st) :
    AtMostOnePerPair (markAttendance m s st fm).2 ∧
    AtMostOnePerPair (toggleAttendance m s st ft).2 := by
  constructor
  · rcases markAttendance_state_cases st m s fm hcm with
      heq | ⟨hns, d, heq⟩ <;> rw [heq]
    · exact h
    · exact atMostOne_insertRecord h hns
  · rcases toggleAttendance_state_cases st m s ft hct with
      heq | heq | ⟨hns, d, heq⟩ <;> rw [heq]
    · exact h
    · exact atMostOne_deleteRecords h
    · exact atMostOne_insertRecord h hns

/-- Counterexample to C3 as stated: `stMarked` satisfies the invariant,
yet one sequential `markAttendance` call in which the duplicate-check
store call fails (its error being discarded) completes successfully and
leaves two records for the pair. -/
theorem invariant_not_preserved_on_check_failure :
    AtMostOnePerPair stMarked ∧
    ¬ AtMostOnePerPair
      (markAttendance "m1" "s1" stMarked
        { serviceFail := false, checkFail := true,
          insertFail := false }).2 := by
  constructor
  · intro m' s'
    exact le_trans (List.length_filter_le _ _) (by decide)
  · intro h
    have h1 := h "m1" "s1"
    revert h1
    decide

/-- Witness for the amended C3 at a concrete store. -/
theorem invariant_preserved_witness :
    (noFailM.checkFail = false ∧ noFailT.checkFail = false ∧
      AtMostOnePerPair stMarked) ∧
    (AtMostOnePerPair (markAttendance "m1" "s1" stMarked noFailM).2 ∧
      AtMostOnePerPair (toggleAttendance "m1" "s1" stMarked noFailT).2) :=
  have hinv : AtMostOnePerPair stMarked := fun m' s' =>
    le_trans (List.length_filter_le _ _) (by decide)
  ⟨⟨rfl, rfl, hinv⟩,
    invariant_preserved stMarked "m1" "s1" noFailM noFailT rfl rfl hinv⟩

/-! ## C7 -/

/-- C7: `getAttendanceRecords` (on a successful store call) returns
exactly the attendance records, each enriched with the related service
names and member full names, as a list sorted by service date
descending. -/
theorem getAttendanceRecords_enriched_sorted (st : Store) :
    ∃ l, getAttendanceRecords st false = .ok l ∧
      l.Perm (st.attendance_records.map (enrich st)) ∧
      l.Sorted dateGE :=
  ⟨_, rfl, List.perm_insertionSort dateGE _,
    List.sorted_insertionSort dateGE _⟩

/-! ## C5 -/

/-- The member ordering C5 asserts (modelled from the spec's words):
full name ascending. -/
def memberNameLE (a b : Member) : Prop := strLE a.full_name b.full_name

instance : DecidableRel memberNameLE := fun a b =>
  inferInstanceAs (Decidable (strLE a.full_name b.full_name))

/-- A store with two members whose creation order disagrees with their
name order: `mbJane` was created after `mbAmy` but sorts after her by
name. -/
def stTwoMembers : Store :=
  { members := [mbJane, mbAmy], services := [svSunday] }

/-- Counterexample to C5 as stated: the admin page's `getMembers` orders
by `created_at` descending, and on `stTwoMembers` its output is not
ordered by full name ascending. -/
theorem getMembersAdmin_not_name_sorted :
    getMembersAdmin stTwoMembers false = .ok [mbJane, mbAmy] ∧
    ¬ List.Sorted memberNameLE [mbJane, mbAmy] := by
  constructor
  · rfl
  · decide

/-- C5 (amended): the attendance page's `getMembers` returns all members
(projected to id and full name) ordered by full name ascending, while the
admin page's `getMembers` returns all members ordered by creation
timestamp descending. -/
theorem getMembers_orderings (st : Store) :
    ∃ l la, getMembers st false = .ok l ∧
      l.Perm (st.members.map (fun mb =>
        ({ id := mb.id, full_name := mb.full_name } : MemberRow))) ∧
      l.Sorted memberRowLE ∧
      getMembersAdmin st false = .ok la ∧
      la.Perm st.members ∧
      la.Sorted memberCreatedGE :=
  ⟨_, _, rfl, List.perm_insertionSort memberRowLE _,
    List.sorted_insertionSort memberRowLE _, rfl,
    List.perm_insertionSort memberCreatedGE _,
    List.sorted_insertionSort memberCreatedGE _⟩

/-! ## C9 -/

/-- Counterexample to C9 as stated: both read queries throw
(`Except.error`, the model of an exception escaping the function) when
their store call fails. -/
theorem reads_throw_on_store_failure :
    getServiceAttendance "s1" stMarked true =
      .error ("Failed to fetch service attendance: " ++ storeFailureMsg) ∧
    getAttendanceRecords stMarked true =
      .error ("Failed to fetch attendance records: " ++ storeFailureMsg) :=
  ⟨rfl, rfl⟩

/-- C9 (amended): the attendance actions `markAttendance` and
`toggleAttendance` return a success/error result value on every path;
the read queries `getServiceAttendance` and `getAttendanceRecords`, like
the directory creates `addMember` and `addService`, raise on store
failure (and the reads return normally when their store call succeeds). -/
theorem error_propagation_conventions :
    (∀ (st : Store) (m s : String) (fm : MarkFlags),
      (markAttendance m s st fm).1 = .success ∨
      ∃ msg, (markAttendance m s st fm).1 = .error msg) ∧
    (∀ (st : Store) (m s : String) (ft : ToggleFlags),
      (toggleAttendance m s st ft).1 = .success ∨
      ∃ msg, (toggleAttendance m s st ft).1 = .error msg) ∧
    (∀ (st : Store) (sid : String),
      getServiceAttendance sid st true =
        .error ("Failed to fetch service attendance: " ++ storeFailureMsg)) ∧
    (∀ st : Store, getAttendanceRecords st true =
      .error ("Failed to fetch attendance records: " ++ storeFailureMsg)) ∧
    (∀ (st : Store) (sid : String),
      ∃ l, getServiceAttendance sid st false = .ok l) ∧
    (∀ st : Store, ∃ l, getAttendanceRecords st false = .ok l) ∧
    (∀ (fn : String) (ph em : Option String) (i c : String) (st : Store),
      fn ≠ "" → addMember fn ph em i c st true =
        .error ("Failed to add member: " ++ storeFailureMsg)) ∧
    (∀ (n : String) (d : Option String) (sd i c : String) (st : Store),
      n ≠ "" → sd ≠ "" → addService n d sd i c st true =
        .error ("Failed to add service: " ++ storeFailureMsg)) := by
  refine ⟨?_, ?_, fun _ _ => rfl, fun _ => rfl, fun _ _ => ⟨_, rfl⟩,
    fun _ => ⟨_, rfl⟩, ?_, ?_⟩
  · intro st m s fm
    cases h : (markAttendance m s st fm).1 with
    | success => exact Or.inl rfl
    | error msg => exact Or.inr ⟨msg, rfl⟩
  · intro st m s ft
    cases h : (toggleAttendance m s st ft).1 with
    | success => exact Or.inl rfl
    | error msg => exact Or.inr ⟨msg, rfl⟩
  · intro fn ph em i c st hfn
    simp [addMember, hfn]
  · intro n d sd i c st hn hsd
    simp [addService, hn, hsd]

/-- Witness for the amended C9: the directory creates raise on store
failure for concrete non-empty inputs. -/
theorem error_propagation_conventions_witness :
    (("Jane Doe" : String) ≠ "" ∧ ("Sunday" : String) ≠ "" ∧
      ("2024-01-07" : String) ≠ "") ∧
    (addMember "Jane Doe" none none "m9" "c9" stBase true =
      .error ("Failed to add member: " ++ storeFailureMsg) ∧
    addService "Sunday" none "2024-01-07" "s9" "c9" stBase true =
      .error ("Failed to add service: " ++ storeFailureMsg)) :=
  ⟨by decide,
    error_propagation_conventions.2.2.2.2.2.2.1 "Jane Doe" none none
      "m9" "c9" stBase (by decide),
    error_propagation_conventions.2.2.2.2.2.2.2 "Sunday" none
      "2024-01-07" "s9" "c9" stBase (by decide) (by decide)⟩

/-! ## C6 -/

/-- When service ids are distinct, filtering the services by one member's
id yields exactly that member of the list. -/
theorem filter_id_single : ∀ {l : List Service} {v : Service},
    (l.map Service.id).Nodup → v ∈ l →
    l.filter (fun w => w.id == v.id) = [v] := by
  intro l
  induction l with
  | nil => intro v _ hv; simp at hv
  | cons a t ih =>
    intro v hid hv
    rw [List.map_cons, List.nodup_cons] at hid
    obtain ⟨hna, hnt⟩ := hid
    rcases List.mem_cons.mp hv with rfl | hvt
    · rw [List.filter_cons, if_pos (by simp)]
      have ht : t.filter (fun w => w.id == v.id) = [] := by
        rw [List.filter_eq_nil_iff]
        intro w hw hwid
        exact hna (by
          rw [← show w.id = v.id from by simpa using hwid]
          exact List.mem_map_of_mem Service.id hw)
      rw [ht]
    · have hne : ¬ (a.id == v.id) = true := by
        simp only [beq_iff_eq]
        intro he
        exact hna (he ▸ List.mem_map_of_mem Service.id hvt)
      rw [List.filter_cons, if_neg hne]
      exact ih hnt hvt

/-- C6 (amended): on a store whose attendance records all reference an
existing service and whose services have pairwise-distinct ids and
pairwise-distinct non-empty names, grouping the fetched records by
service name gives, for each service, exactly as many records as
`getServiceAttendance` returns for that service's id.  (When two services
share a name their groups merge; see the counterexample.) -/
theorem grouping_matches_per_service_counts (st : Store) (sv : Service)
    (hid : (st.services.map Service.id).Nodup)
    (hname : (st.services.map Service.name).Nodup)
    (hne : ∀ v ∈ st.services, v.name ≠ "")
    (hcov : ∀ r ∈ st.attendance_records,
      ∃ v ∈ st.services, v.id = r.service_id)
    (hsv : sv ∈ st.services) :
    ∃ l la, getAttendanceRecords st false = .ok l ∧
      getServiceAttendance sv.id st false = .ok la ∧
      (recordsByService l sv.name).length = la.length := by
  refine ⟨_, _, rfl, rfl, ?_⟩
  have hperm : (List.insertionSort dateGE
        (st.attendance_records.map (enrich st))).Perm
      (st.attendance_records.map (enrich st)) :=
    List.perm_insertionSort _ _
  calc (recordsByService (List.insertionSort dateGE
          (st.attendance_records.map (enrich st))) sv.name).length
      = ((st.attendance_records.map (enrich st)).filter
          (fun e => serviceNameKey e == sv.name)).length :=
        (hperm.filter _).length_eq
    _ = (st.attendance_records.filter
          (fun r => serviceNameKey (enrich st r) == sv.name)).length := by
        rw [List.filter_map]
        rw [List.length_map]
        rfl
    _ = (st.attendance_records.filter
          (fun r => r.service_id == sv.id)).length := by
        rw [← List.countP_eq_length_filter, ← List.countP_eq_length_filter]
        apply List.countP_congr
        intro r hr
        obtain ⟨v, hv, hvid⟩ := hcov r hr
        have hfil : st.services.filter (fun w => w.id == r.service_id)
            = [v] := by
          rw [← hvid]
          exact filter_id_single hid hv
        have hkey : serviceNameKey (enrich st r) = v.name := by
          simp [serviceNameKey, enrich, hfil, hne v hv]
        simp only [hkey, beq_iff_eq]
        constructor
        · intro hkeq
          have hveq : v = sv :=
            List.inj_on_of_nodup_map hname hv hsv hkeq
          rw [← hvid, hveq]
        · intro hideq
          have hveq : v = sv :=
            List.inj_on_of_nodup_map hid hv hsv (hvid.trans hideq)
          rw [hveq]

/-- A second record, of `mbJane` at `svSunday2`. -/
def recJane2 : AttendanceRecord :=
  { id := "r2", member_id := "m1", service_id := "s2",
    service_date := "2024-01-14" }

/-- A store with two distinct services sharing the name
`Sunday Service`, each with one attendance record. -/
def stSharedName : Store :=
  { members := [mbJane], services := [svSunday, svSunday2],
    attendance_records := [recJane, recJane2] }

/-- Counterexample to C6 as stated: on `stSharedName`, the group for the
name `Sunday Service` holds the records of both same-named services (2),
while `getServiceAttendance` for service `s1` returns 1 record, so the
group count does not match the per-service count. -/
theorem grouping_name_collision :
    (recordsByService
        ((getAttendanceRecords stSharedName false).toOption.getD [])
        "Sunday Service").length = 2 ∧
    getServiceAttendance "s1" stSharedName false = .ok [recJane] ∧
    (recordsByService
        ((getAttendanceRecords stSharedName false).toOption.getD [])
        "Sunday Service").length ≠
      ((getServiceAttendance "s1" stSharedName false).toOption.getD
        []).length := by
  refine ⟨by decide, rfl, by decide⟩

/-- Witness for the amended C6 at a concrete store. -/
theorem grouping_matches_per_service_counts_witness :
    ((stMarked.services.map Service.id).Nodup ∧
      (stMarked.services.map Service.name).Nodup ∧
      (∀ v ∈ stMarked.services, v.name ≠ "") ∧
      (∀ r ∈ stMarked.attendance_records,
        ∃ v ∈ stMarked.services, v.id = r.service_id) ∧
      svSunday ∈ stMarked.services) ∧
    (∃ l la, getAttendanceRecords stMarked false = .ok l ∧
      getServiceAttendance svSunday.id stMarked false = .ok la ∧
      (recordsByService l svSunday.name).length = la.length) :=
  ⟨⟨by decide, by decide, by decide, by decide, by decide⟩,
    grouping_matches_per_service_counts stMarked svSunday (by decide)
      (by decide) (by decide) (by decide) (by decide)⟩
